import Mathlib

/-!
Verification development for the web-search subsystem of mcp-store
(`src/servers/web-search/web.py`).

The Python module is shallowly embedded: pure helpers become Lean
functions; the module-level mutable state (`search_timestamps`,
`failed_engines`) becomes an explicit `SearchState` record (times as integer seconds) threaded
through every operation; network responses are supplied by an `Env`
oracle (`none` models a raised request/parse exception, `some items`
models a successfully fetched and parsed page); `time.time()` reads
during one orchestration pass are modelled by the single integer
`Env.now`.  Python dict-shaped result records become the `ResultDict`
structure whose fields are the keys that actually occur in the source
(`title`, `url`, `snippet`, `href`, `body`, `image`), each optional to
model key absence.
-/

/-! ## Generic character-list helpers (standing in for Python string ops) -/

/-- Does the first list start with the second one?  Used to model
`str.startswith` and the literal alternatives of `re.search`. -/
def listStartsWith : List Char → List Char → Bool
  | _, [] => true
  | [], _ :: _ => false
  | c :: cs, d :: ds => (c == d) && listStartsWith cs ds

/-- Model of `str.endswith` on exploded strings. -/
def listEndsWith (s e : List Char) : Bool :=
  listStartsWith s.reverse e.reverse

/-- Model of `str.lower` (the source only ever lowercases ASCII URLs). -/
def lowerList (s : List Char) : List Char :=
  s.map Char.toLower

/-- Does `p` occur as a contiguous substring of the second argument?
Models Python's `in` on strings. -/
def listContainsSub (p : List Char) : List Char → Bool
  | [] => p.isEmpty
  | c :: t => listStartsWith (c :: t) p || listContainsSub p t

/-- Substring test on `String`, via the exploded representation. -/
def strContainsSub (s p : String) : Bool :=
  listContainsSub p.data s.data

/-! ## Rate limiter — `check_rate_limit`, web.py lines 66-82

The Python function reads/writes the global `search_timestamps` list and
the `rate_limit` config (`max_requests`, `window_seconds`); here both
are parameters and the timestamp list is threaded explicitly.  It first
purges entries `ts` with `current_time - ts >= window`, then denies
(without recording) when `len >= max_requests`, else records `now`. -/

def check_rate_limit (maxRequests : ℕ) (windowSeconds : ℤ) (now : ℤ)
    (timestamps : List ℤ) : Bool × List ℤ :=
  if maxRequests ≤ (timestamps.filter (fun ts => now - ts < windowSeconds)).length then
    (false, timestamps.filter (fun ts => now - ts < windowSeconds))
  else
    (true, timestamps.filter (fun ts => now - ts < windowSeconds) ++ [now])

/-- Run a sequence of admission checks at the given call times, starting
from the given recorded-timestamp list; returns the list of verdicts and
the final recorded list. -/
def runRateCalls (maxRequests : ℕ) (windowSeconds : ℤ) :
    List ℤ → List ℤ → List Bool × List ℤ
  | [], ts => ([], ts)
  | c :: cs, ts =>
    ((check_rate_limit maxRequests windowSeconds c ts).1 ::
       (runRateCalls maxRequests windowSeconds cs
         (check_rate_limit maxRequests windowSeconds c ts).2).1,
     (runRateCalls maxRequests windowSeconds cs
       (check_rate_limit maxRequests windowSeconds c ts).2).2)

/-! ## Engine health tracker — web.py lines 85-103

`failed_engines` is a Python dict from engine name to last-failure time;
modelled as an association list accessed only through the operations
below (insertion overwrites, deletion removes the key). -/

def lookupEngine (m : List (String × ℤ)) (name : String) : Option ℤ :=
  match m.find? (fun p => p.1 = name) with
  | some p => some p.2
  | none => none

def eraseEngine (m : List (String × ℤ)) (name : String) : List (String × ℤ) :=
  m.filter (fun p => p.1 ≠ name)

/-- Model of `mark_engine_failed` (web.py lines 99-103):
`failed_engines[engine_name] = time.time()`. -/
def mark_engine_failed (now : ℤ) (m : List (String × ℤ)) (name : String) :
    List (String × ℤ) :=
  (name, now) :: eraseEngine m name

/-- Model of `is_engine_failing` (web.py lines 85-96).  Returns the
verdict together with the possibly-updated map: when the recorded
failure is strictly more than 300 seconds old the entry is deleted and
the engine reports healthy. -/
def is_engine_failing (now : ℤ) (m : List (String × ℤ)) (name : String) :
    Bool × List (String × ℤ) :=
  match lookupEngine m name with
  | some t => if now - t > 300 then (false, eraseEngine m name) else (true, m)
  | none => (false, m)

/-! ## Multimedia classifier — web.py lines 554-576 -/

/-- A character allowed inside a captured YouTube id: the regex capture
group is `[^&\n?#]+`. -/
def isYtIdChar (c : Char) : Bool :=
  !(c == '&' || c == '\n' || c == '?' || c == '#')

/-- Try, at the current position, each literal alternative in order; on
a hit, the (greedy, nonempty) run of id characters after it is the
capture.  Mirrors how `re.search` treats the alternation
`(?:youtube\.com\/watch\?v=|youtu\.be\/|youtube\.com\/embed\/)([^&\n?#]+)`. -/
def matchYtAt (alts : List (List Char)) (s : List Char) : Option (List Char) :=
  alts.findSome? (fun a =>
    if listStartsWith s a then
      if ((s.drop a.length).takeWhile isYtIdChar).isEmpty then none
      else some ((s.drop a.length).takeWhile isYtIdChar)
    else none)

/-- Scan left to right for the earliest position where the pattern
matches, as `re.search` does. -/
def scanYt (alts : List (List Char)) : List Char → Option (List Char)
  | [] => none
  | c :: t =>
    match matchYtAt alts (c :: t) with
    | some cap => some cap
    | none => scanYt alts t

/-- Model of `extract_youtube_id` (web.py lines 554-564): the first
pattern (watch / short-link / embed alternatives) is searched over the
whole string; only if it finds nothing is the `shorts` pattern tried. -/
def extract_youtube_id (url : String) : Option String :=
  match scanYt ["youtube.com/watch?v=".data, "youtu.be/".data,
      "youtube.com/embed/".data] url.data with
  | some cap => some (String.mk cap)
  | none =>
    match scanYt ["youtube.com/shorts/".data] url.data with
    | some cap => some (String.mk cap)
    | none => none

/-- Model of `is_image_url` (web.py lines 567-570):
`url.lower().endswith(('.jpg','.jpeg','.png','.gif','.webp','.bmp','.svg'))`. -/
def is_image_url (url : String) : Bool :=
  [".jpg", ".jpeg", ".png", ".gif", ".webp", ".bmp", ".svg"].any
    (fun e => listEndsWith (lowerList url.data) e.data)

/-- Model of `is_video_url` (web.py lines 573-576). -/
def is_video_url (url : String) : Bool :=
  [".mp4", ".webm", ".ogg", ".mov", ".avi"].any
    (fun e => listEndsWith (lowerList url.data) e.data)

/-! ## Result records

Python result dicts are heterogeneous: the DuckDuckGo API yields keys
`title` / `href` / `body`, the HTML scrapers and the normalizer yield
`title` / `url` / `snippet`, `ddgs.images` yields `image` / `title`.
`ResultDict` has one optional field per key used in the source; a field
that is `none` models an absent key, and `d.get(k, default)` becomes
`(r.k).getD default`. -/

structure ResultDict where
  title : Option String := none
  url : Option String := none
  snippet : Option String := none
  href : Option String := none
  body : Option String := none
  image : Option String := none
  deriving DecidableEq

/-- DuckDuckGo-API-record conversion done inline in
`search_with_fallbacks` (web.py lines 490-498): every raw record is
appended, with defaults `'No title'` / `''` / `'No description'` for the
`title` / `href` / `body` keys. -/
def formatDdgApiResult (r : ResultDict) : ResultDict :=
  { title := some (r.title.getD "No title"),
    url := some (r.href.getD ""),
    snippet := some (r.body.getD "No description") }

/-- Constant pieces of the diagnostic snippet built at web.py line 550. -/
def phPre : String := "All search engines are currently unavailable for query: \""

def phPost : String :=
  "\". This is very rare - please try again in a few minutes. We tried 7 different search methods including DuckDuckGo, Google, Bing, Yandex, Startpage, and Ecosia."

def placeholderSnippet (q : String) : String := phPre ++ q ++ phPost

/-- The synthetic result returned when every method failed
(web.py lines 547-551). -/
def placeholderResult (q : String) : ResultDict :=
  { title := some "Search Temporarily Unavailable",
    url := some "",
    snippet := some (placeholderSnippet q) }

/-! ## Parsed HTML items

A scraped page is modelled as the list of candidate result blocks the
BeautifulSoup selectors would return; each block records which
sub-elements are present and their text / attributes. -/

/-- A `div.result` block of the DuckDuckGo HTML page (web.py lines
296-310): `titleElem = some (text, hrefAttr)` models a present
`a.result__a` element. -/
structure DdgHtmlItem where
  titleElem : Option (String × Option String) := none
  snippetText : Option String := none
  deriving DecidableEq

/-- Per-item conversion of the DuckDuckGo HTML parser: a block is kept
iff the title element is present; the url defaults to `''` when the
`href` attribute is missing, the snippet to `''` when the snippet
element is missing. -/
def parseDdgHtmlItem (i : DdgHtmlItem) : Option ResultDict :=
  match i.titleElem with
  | some te =>
    some { title := some te.1, url := some (te.2.getD ""),
           snippet := some (i.snippetText.getD "") }
  | none => none

/-- A result block of the five other scraped engines (google / bing /
yandex / startpage / ecosia, web.py lines 148-167, 200-215, 248-263,
343-358, 453-468): all require both a title element and a link element;
`linkElem = some h` models a present link element whose `href`
attribute is `h`. -/
structure ScrapeItem where
  titleText : Option String := none
  linkElem : Option (Option String) := none
  snippetText : Option String := none
  deriving DecidableEq

/-- Google unwraps redirect links (web.py lines 160-161):
`url.split('/url?q=')[1].split('&')[0]` when the url starts with
`/url?q=`. -/
def dropThroughFirst (sep : List Char) : List Char → List Char
  | [] => []
  | c :: t =>
    if listStartsWith (c :: t) sep then (c :: t).drop sep.length
    else dropThroughFirst sep t

def takeUntilSub (sep : List Char) : List Char → List Char
  | [] => []
  | c :: t => if listStartsWith (c :: t) sep then [] else c :: takeUntilSub sep t

def googleUnwrap (url : String) : String :=
  if listStartsWith url.data ("/url?q=".data) then
    String.mk ((takeUntilSub ("/url?q=".data)
      (dropThroughFirst ("/url?q=".data) url.data)).takeWhile (fun c => !(c == '&')))
  else url

/-- URL post-processing applied per engine: only google rewrites urls. -/
def postprocessFor (name : String) : String → String :=
  if name = "google" then googleUnwrap else id

/-- Per-item conversion shared by the five title-and-link engines. -/
def parseScrapeItem (post : String → String) (i : ScrapeItem) : Option ResultDict :=
  match i.titleText, i.linkElem with
  | some t, some h =>
    some { title := some t, url := some (post (h.getD "")),
           snippet := some (i.snippetText.getD "") }
  | _, _ => none

/-! ## Module state and environment -/

/-- The module-level mutable globals of web.py: `search_timestamps`
(line 61) and `failed_engines` (line 63). -/
structure SearchState where
  timestamps : List ℤ := []
  failedEngines : List (String × ℤ) := []
  deriving DecidableEq

/-- External-world oracle for one orchestration pass: availability of
the `duckduckgo_search` library, the current time, and each provider's
response for this query.  `none` models a raised network/parse
exception; `some items` a successfully fetched response.  (In the
source the query string only feeds the outgoing request URL, which the
oracle abstracts.) -/
structure Env where
  ddgsAvailable : Bool
  now : ℤ
  ddgTextRaw : Option (List ResultDict)
  ddgImagesRaw : Option (List ResultDict)
  ddgHtmlRaw : Option (List DdgHtmlItem)
  scrapeRaw : String → Option (List ScrapeItem)

/-! ## The fallback orchestrator — `search_with_fallbacks`, web.py lines 480-551 -/

/-- Method 1 of `search_with_fallbacks` (lines 483-501): the DuckDuckGo
API is attempted only when the library is available and the rate
limiter admits; an exception marks `duckduckgo_api` failed; an empty
result list falls through silently.  The third component records
whether `ddgs.text` was actually invoked. -/
def method1 (env : Env) (_q : String) (_n : ℕ) (st : SearchState) :
    Option (List ResultDict) × SearchState × Bool :=
  if env.ddgsAvailable then
    if (check_rate_limit 15 60 env.now st.timestamps).1 then
      match env.ddgTextRaw with
      | none =>
        (none,
         { timestamps := (check_rate_limit 15 60 env.now st.timestamps).2,
           failedEngines := mark_engine_failed env.now st.failedEngines "duckduckgo_api" },
         true)
      | some raws =>
        if raws.isEmpty then
          (none, { st with timestamps := (check_rate_limit 15 60 env.now st.timestamps).2 }, true)
        else
          (some (raws.map formatDdgApiResult),
           { st with timestamps := (check_rate_limit 15 60 env.now st.timestamps).2 }, true)
    else
      (none, { st with timestamps := (check_rate_limit 15 60 env.now st.timestamps).2 }, false)
  else (none, st, false)

/-- Model of `search_duckduckgo_html_fallback` (web.py lines 275-319):
skip when the engine is marked failing, mark it failed on a raised
exception, otherwise parse the first `num_results` blocks. -/
def search_duckduckgo_html_fallback (env : Env) (_q : String) (n : ℕ)
    (st : SearchState) : List ResultDict × SearchState :=
  if (is_engine_failing env.now st.failedEngines "duckduckgo_html").1 then
    ([], { st with failedEngines := (is_engine_failing env.now st.failedEngines "duckduckgo_html").2 })
  else
    match env.ddgHtmlRaw with
    | none =>
      ([], { st with failedEngines :=
        mark_engine_failed env.now (is_engine_failing env.now st.failedEngines "duckduckgo_html").2 "duckduckgo_html" })
    | some items =>
      ((items.take n).filterMap parseDdgHtmlItem,
       { st with failedEngines := (is_engine_failing env.now st.failedEngines "duckduckgo_html").2 })

/-- Shared shape of the five other scraped-engine fallbacks
(`search_google_fallback`, `search_bing_fallback`,
`search_yandex_fallback`, `search_startpage_fallback`,
`search_ecosia_fallback`): identical control flow, engine-specific
selectors abstracted by `Env.scrapeRaw`. -/
def genericScrapeAdapter (env : Env) (name : String) (_q : String) (n : ℕ)
    (st : SearchState) : List ResultDict × SearchState :=
  if (is_engine_failing env.now st.failedEngines name).1 then
    ([], { st with failedEngines := (is_engine_failing env.now st.failedEngines name).2 })
  else
    match env.scrapeRaw name with
    | none =>
      ([], { st with failedEngines :=
        mark_engine_failed env.now (is_engine_failing env.now st.failedEngines name).2 name })
    | some items =>
      ((items.take n).filterMap (parseScrapeItem (postprocessFor name)),
       { st with failedEngines := (is_engine_failing env.now st.failedEngines name).2 })

/-- Dispatch an engine of the fallback chain to its adapter. -/
def runEngine (env : Env) (q : String) (n : ℕ) (name : String)
    (st : SearchState) : List ResultDict × SearchState :=
  if name = "duckduckgo_html" then search_duckduckgo_html_fallback env q n st
  else genericScrapeAdapter env name q n st

/-- The fixed priority order of Methods 2-7 (web.py lines 503-543). -/
def chainNames : List String :=
  ["duckduckgo_html", "google", "bing", "yandex", "startpage", "ecosia"]

/-- Iterate the scraped engines in order, returning on the first
non-empty result list; also returns the final state and the trace of
engines whose adapter was invoked.  The source writes this loop out as
seven manually unrolled `if results: return results` blocks. -/
def runChain (env : Env) (q : String) (n : ℕ) :
    List String → SearchState → Option (List ResultDict) × SearchState × List String
  | [], st => (none, st, [])
  | name :: rest, st =>
    if (runEngine env q n name st).1.isEmpty then
      ((runChain env q n rest (runEngine env q n name st).2).1,
       (runChain env q n rest (runEngine env q n name st).2).2.1,
       name :: (runChain env q n rest (runEngine env q n name st).2).2.2)
    else
      (some (runEngine env q n name st).1, (runEngine env q n name st).2, [name])

/-- Model of `search_with_fallbacks` (web.py lines 480-551): Method 1,
then the scraped chain, then the synthetic placeholder.  Returns the
results, the final module state, and the trace of invoked engines. -/
def search_with_fallbacks (env : Env) (q : String) (n : ℕ) (st : SearchState) :
    List ResultDict × SearchState × List String :=
  match (method1 env q n st).1 with
  | some rs => (rs, (method1 env q n st).2.1, ["duckduckgo_api"])
  | none =>
    match (runChain env q n chainNames (method1 env q n st).2.1).1 with
    | some rs =>
      (rs, (runChain env q n chainNames (method1 env q n st).2.1).2.1,
       (if (method1 env q n st).2.2 then ["duckduckgo_api"] else []) ++
         (runChain env q n chainNames (method1 env q n st).2.1).2.2)
    | none =>
      ([placeholderResult q],
       (runChain env q n chainNames (method1 env q n st).2.1).2.1,
       (if (method1 env q n st).2.2 then ["duckduckgo_api"] else []) ++
         (runChain env q n chainNames (method1 env q n st).2.1).2.2)

/-! ## MCP handlers — `handle_search` (web.py lines 693-764) and
`handle_image_search` (web.py lines 800-852) -/

/-- The `(title, snippet, url)` triple interpolated into each rendered
text item of `handle_search` (web.py lines 712-715 and 744-749). -/
structure RenderedItem where
  title : String
  url : String
  snippet : String
  deriving DecidableEq

/-- An entry of `multimedia_found` (web.py lines 717-741). -/
inductive MultimediaItem where
  | youtube (id title url : String)
  | image (url title : String)
  | video (url title : String)
  deriving DecidableEq

/-- Per-result processing of `handle_search` (web.py lines 712-749):
note it reads the url from key `href` and the snippet from key `body`,
then runs the classifier on that url. -/
def processSearchResult (r : ResultDict) : RenderedItem × Option MultimediaItem :=
  match extract_youtube_id (r.href.getD "") with
  | some vid =>
    (⟨r.title.getD "No title", r.href.getD "", r.body.getD "No description"⟩,
     some (MultimediaItem.youtube vid (r.title.getD "No title") (r.href.getD "")))
  | none =>
    if is_image_url (r.href.getD "") then
      (⟨r.title.getD "No title", r.href.getD "", r.body.getD "No description"⟩,
       some (MultimediaItem.image (r.href.getD "") (r.title.getD "No title")))
    else if is_video_url (r.href.getD "") then
      (⟨r.title.getD "No title", r.href.getD "", r.body.getD "No description"⟩,
       some (MultimediaItem.video (r.href.getD "") (r.title.getD "No title")))
    else
      (⟨r.title.getD "No title", r.href.getD "", r.body.getD "No description"⟩, none)

/-- Model of `handle_search`: run the fallback search, then produce the
rendered items and the collected multimedia entries. -/
def handle_search (env : Env) (q : String) (n : ℕ) (st : SearchState) :
    List RenderedItem × List MultimediaItem × SearchState :=
  ((search_with_fallbacks env q n st).1.map (fun r => (processSearchResult r).1),
   (search_with_fallbacks env q n st).1.filterMap (fun r => (processSearchResult r).2),
   (search_with_fallbacks env q n st).2.1)

/-- The query augmentation of the image-search fallback
(web.py line 826). -/
def imageQueryHints (q : String) : String :=
  q ++ " filetype:jpg OR filetype:png OR filetype:gif"

/-- The image-collection loop of `handle_image_search` (web.py lines
832-840): keep `(image, title)` for records with a non-empty `image`
key. -/
def imagesFound (results : List ResultDict) : List (String × String) :=
  results.filterMap (fun r =>
    if r.image.getD "" = "" then none
    else some (r.image.getD "", r.title.getD "No title"))

/-- Model of `handle_image_search` (web.py lines 800-852): try
`ddgs.images` when available and admitted (an exception yields `[]`
without marking any engine), fall back to `search_with_fallbacks` on
the hint-augmented query when the image lookup yielded nothing, then
collect records carrying an `image` key. -/
def handle_image_search (env : Env) (q : String) (n : ℕ) (st : SearchState) :
    List (String × String) × SearchState :=
  if env.ddgsAvailable then
    if (check_rate_limit 15 60 env.now st.timestamps).1 then
      match env.ddgImagesRaw with
      | none =>
        (imagesFound (search_with_fallbacks env (imageQueryHints q) n
            { st with timestamps := (check_rate_limit 15 60 env.now st.timestamps).2 }).1,
         (search_with_fallbacks env (imageQueryHints q) n
            { st with timestamps := (check_rate_limit 15 60 env.now st.timestamps).2 }).2.1)
      | some rs =>
        if rs.isEmpty then
          (imagesFound (search_with_fallbacks env (imageQueryHints q) n
              { st with timestamps := (check_rate_limit 15 60 env.now st.timestamps).2 }).1,
           (search_with_fallbacks env (imageQueryHints q) n
              { st with timestamps := (check_rate_limit 15 60 env.now st.timestamps).2 }).2.1)
        else
          (imagesFound rs,
           { st with timestamps := (check_rate_limit 15 60 env.now st.timestamps).2 })
    else
      (imagesFound (search_with_fallbacks env (imageQueryHints q) n
          { st with timestamps := (check_rate_limit 15 60 env.now st.timestamps).2 }).1,
       (search_with_fallbacks env (imageQueryHints q) n
          { st with timestamps := (check_rate_limit 15 60 env.now st.timestamps).2 }).2.1)
  else
    (imagesFound (search_with_fallbacks env (imageQueryHints q) n st).1,
     (search_with_fallbacks env (imageQueryHints q) n st).2.1)

/-! ## Concrete environments and inputs used to instantiate theorems -/

/-- Fresh module state: both globals empty, as at process start. -/
def st0 : SearchState := {}

/-- Library unavailable, every scraped page fetched but with zero
result blocks: every adapter yields empty. -/
def envExhaust : Env :=
  { ddgsAvailable := false, now := 0, ddgTextRaw := none, ddgImagesRaw := none,
    ddgHtmlRaw := some [], scrapeRaw := fun _ => some [] }

/-- One well-formed google result block. -/
def sampleScrapeItem : ScrapeItem :=
  { titleText := some "Example", linkElem := some (some "https://example.com/a.html"),
    snippetText := some "An example page" }

/-- Library unavailable, DuckDuckGo HTML empty, google succeeds:
exercises the short-circuit at the third method. -/
def envShortCircuit : Env :=
  { ddgsAvailable := false, now := 0, ddgTextRaw := none, ddgImagesRaw := none,
    ddgHtmlRaw := some [],
    scrapeRaw := fun name => if name = "google" then some [sampleScrapeItem] else some [] }

/-- A DuckDuckGo HTML block whose link is a direct image URL. -/
def catItem : DdgHtmlItem :=
  { titleElem := some ("Cat picture", some "https://example.com/pic.png"),
    snippetText := some "a cat" }

/-- Library available but both structured lookups return zero records;
the DuckDuckGo HTML fallback returns one image-URL result. -/
def envImageBug : Env :=
  { ddgsAvailable := true, now := 0, ddgTextRaw := some [], ddgImagesRaw := some [],
    ddgHtmlRaw := some [catItem], scrapeRaw := fun _ => some [] }

/-- A raw DuckDuckGo-API record with every key absent (in particular no
`href`). -/
def rawNoHref : ResultDict := {}

/-- The fifteen call times 0, 1, ..., 14 used to exercise the default
rate limit of 15 requests per 60 seconds. -/
def rateCalls15 : List ℤ :=
  [0, 1, 2, 3, 4, 5, 6, 7, 8, 9, 10, 11, 12, 13, 14]

/-! ## Rate-limiter lemmas -/

/-- As long as all recorded and incoming timestamps lie pairwise within
one window and their total count stays within the cap, every admission
check succeeds and records its time. -/
theorem rate_admit_all (M : ℕ) (W : ℤ) :
    ∀ (calls s : List ℤ),
    (s ++ calls).Pairwise (fun a b => a ≤ b ∧ b - a < W) →
    (s ++ calls).length ≤ M →
    runRateCalls M W calls s = (List.replicate calls.length true, s ++ calls) := by
  intro calls
  induction calls with
  | nil => intro s _ _; simp [runRateCalls]
  | cons c cs ih =>
    intro s hpair hlen
    have hkeep : ∀ t ∈ s, c - t < W := by
      intro t ht
      exact ((List.pairwise_append.1 hpair).2.2 t ht c (by simp)).2
    have hfilter : s.filter (fun t => decide (c - t < W)) = s := by
      rw [List.filter_eq_self]
      intro a ha
      exact decide_eq_true (hkeep a ha)
    have hlt : ¬ M ≤ s.length := by
      have : s.length + (cs.length + 1) ≤ M := by
        simpa [List.length_append] using hlen
      omega
    have hcheck : check_rate_limit M W c s = (true, s ++ [c]) := by
      unfold check_rate_limit
      rw [hfilter, if_neg hlt]
    have hpair2 : ((s ++ [c]) ++ cs).Pairwise (fun a b => a ≤ b ∧ b - a < W) := by
      simpa [List.append_assoc] using hpair
    have hlen2 : ((s ++ [c]) ++ cs).length ≤ M := by
      simpa [List.append_assoc, List.length_append] using hlen
    have hrec := ih (s ++ [c]) hpair2 hlen2
    simp only [runRateCalls, hcheck, hrec]
    simp [List.replicate_succ, List.append_assoc]

/-! ## Health-tracker lemmas -/

theorem lookup_mark (m : List (String × ℤ)) (name : String) (T : ℤ) :
    lookupEngine (mark_engine_failed T m name) name = some T := by
  simp [lookupEngine, mark_engine_failed, List.find?]

theorem lookup_erase (m : List (String × ℤ)) (name : String) :
    lookupEngine (eraseEngine m name) name = none := by
  unfold lookupEngine eraseEngine
  rw [List.find?_eq_none.2]
  intro x hx
  rcases List.mem_filter.1 hx with ⟨-, hpx⟩
  simp only [decide_eq_true_eq] at hpx ⊢
  exact hpx

/-! ## Theorems for the claims on the rate limiter, the health tracker
and the classifier -/

/-- C3: with `maxRequests` M and `windowSeconds` W, M admission checks
whose times lie within one window all succeed and are recorded; a
further check within the same window is denied and records nothing (the
state keeps exactly the M recorded times); once W seconds have elapsed
past every recorded time, admission succeeds again; and every timestamp
surviving a check is either younger than the window or the one just
recorded (old entries are purged before deciding). -/
theorem rate_limit_window (M : ℕ) (W : ℤ) (calls : List ℤ)
    (hM : 0 < M) (hlen : calls.length = M)
    (hpair : calls.Pairwise (fun a b => a ≤ b ∧ b - a < W)) :
    runRateCalls M W calls [] = (List.replicate M true, calls)
    ∧ (∀ extra, (∀ t ∈ calls, t ≤ extra ∧ extra - t < W) →
        check_rate_limit M W extra calls = (false, calls))
    ∧ (∀ later, (∀ t ∈ calls, W ≤ later - t) →
        check_rate_limit M W later calls = (true, [later]))
    ∧ (∀ now ts, ∀ t ∈ (check_rate_limit M W now ts).2, now - t < W ∨ t = now) := by
  refine ⟨?_, ?_, ?_, ?_⟩
  · have h := rate_admit_all M W calls [] (by simpa using hpair) (by simpa using hlen.le)
    simpa [hlen] using h
  · intro extra hex
    have hf : calls.filter (fun t => decide (extra - t < W)) = calls := by
      rw [List.filter_eq_self]
      intro a ha
      exact decide_eq_true (hex a ha).2
    unfold check_rate_limit
    rw [hf, if_pos (hlen ▸ le_refl M)]
  · intro later hl
    have hf : calls.filter (fun t => decide (later - t < W)) = [] := by
      rw [List.filter_eq_nil_iff]
      intro a ha
      simp only [decide_eq_true_eq, not_lt]
      exact hl a ha
    unfold check_rate_limit
    rw [hf, if_neg (by simpa using hM.ne')]
    simp
  · intro now ts t ht
    unfold check_rate_limit at ht
    by_cases hc : M ≤ (ts.filter (fun x => decide (now - x < W))).length
    · rw [if_pos hc] at ht
      exact Or.inl (by simpa using (List.mem_filter.1 ht).2)
    · rw [if_neg hc] at ht
      rcases List.mem_append.1 ht with h | h
      · exact Or.inl (by simpa using (List.mem_filter.1 h).2)
      · exact Or.inr (by simpa using h)

/-- Witness for C3 at the source defaults 15 requests / 60 seconds. -/
theorem rate_limit_window_witness :
    runRateCalls 15 60 rateCalls15 [] = (List.replicate 15 true, rateCalls15)
    ∧ check_rate_limit 15 60 30 rateCalls15 = (false, rateCalls15)
    ∧ check_rate_limit 15 60 74 rateCalls15 = (true, [74]) := by
  have h := rate_limit_window 15 60 rateCalls15 (by decide) (by decide) (by decide)
  exact ⟨h.1, h.2.1 30 (by decide), h.2.2.1 74 (by decide)⟩

/-- C4 (amended): after `mark_engine_failed` at time T, the engine
reports failing at every query time with `now - T ≤ 300` (including
exactly T + 300, with the entry kept), and reports healthy with the
entry removed only once `now - T > 300`. -/
theorem engine_cooldown_amended (m : List (String × ℤ)) (name : String) (T now : ℤ) :
    (now - T ≤ 300 →
      is_engine_failing now (mark_engine_failed T m name) name
        = (true, mark_engine_failed T m name))
    ∧ (300 < now - T →
      (is_engine_failing now (mark_engine_failed T m name) name).1 = false
      ∧ lookupEngine ((is_engine_failing now (mark_engine_failed T m name) name).2) name
          = none) := by
  constructor
  · intro h
    unfold is_engine_failing
    rw [lookup_mark]
    simp only
    rw [if_neg (by linarith)]
  · intro h
    unfold is_engine_failing
    rw [lookup_mark]
    simp only
    rw [if_pos (by linarith)]
    exact ⟨rfl, lookup_erase _ _⟩

/-- Witness for C4's amended statement: failing at 100 s after the
mark, healed at 400 s. -/
theorem engine_cooldown_amended_witness :
    is_engine_failing 100 (mark_engine_failed 0 [] "google") "google"
      = (true, mark_engine_failed 0 [] "google")
    ∧ (is_engine_failing 400 (mark_engine_failed 0 [] "google") "google").1 = false := by
  exact ⟨(engine_cooldown_amended [] "google" 0 100).1 (by norm_num),
         ((engine_cooldown_amended [] "google" 0 400).2 (by norm_num)).1⟩

/-- C4 counterexample: at exactly T + cooldown (failure at 0, query at
300) the tracker still reports the engine as failing, because the
source heals only when `current_time - failure > 300`; the claim says
`is_engine_failing` returns false at time T + cooldown. -/
theorem engine_cooldown_boundary_counterexample :
    (is_engine_failing 300 (mark_engine_failed 0 [] "google") "google").1 = true := by
  decide

/-- C7: the classifier's concrete behaviours — watch-URL id extraction,
short-link id extraction stopping at `?`, case-insensitive image-suffix
match, and a `.pdf` URL matching none of the three classifiers. -/
theorem multimedia_classifier_cases :
    extract_youtube_id "https://www.youtube.com/watch?v=abc123" = some "abc123"
    ∧ extract_youtube_id "https://youtu.be/xyz789?t=5" = some "xyz789"
    ∧ is_image_url "https://example.com/pic.PNG" = true
    ∧ extract_youtube_id "https://example.com/doc.pdf" = none
    ∧ is_image_url "https://example.com/doc.pdf" = false
    ∧ is_video_url "https://example.com/doc.pdf" = false := by
  decide

/-! ## Fallback-chain lemmas -/

/-- A non-empty adapter result stops the chain at once. -/
theorem runChain_cons_of_nonempty (env : Env) (q : String) (n : ℕ)
    (e : String) (ys : List String) (st : SearchState)
    (h : (runEngine env q n e st).1 ≠ []) :
    runChain env q n (e :: ys) st =
      (some (runEngine env q n e st).1, (runEngine env q n e st).2, [e]) := by
  simp only [runChain]
  rw [if_neg (by simpa using h)]

/-- A fully-empty prefix of the chain just threads the state through. -/
theorem runChain_append_of_none (env : Env) (q : String) (n : ℕ) :
    ∀ (xs ys : List String) (st stMid : SearchState),
    runChain env q n xs st = (none, stMid, xs) →
    runChain env q n (xs ++ ys) st =
      ((runChain env q n ys stMid).1, (runChain env q n ys stMid).2.1,
       xs ++ (runChain env q n ys stMid).2.2) := by
  intro xs
  induction xs with
  | nil =>
    intro ys st stMid h
    simp only [runChain] at h
    have h2 : st = stMid := by
      have := congrArg (fun z => z.2.1) h
      simpa using this
    subst h2
    rfl
  | cons x xs ih =>
    intro ys st stMid h
    simp only [runChain] at h
    by_cases hp : (runEngine env q n x st).1.isEmpty
    · rw [if_pos hp] at h
      have h1 : (runChain env q n xs (runEngine env q n x st).2).1 = none := by
        have := congrArg (fun z => z.1) h
        simpa using this
      have h2 : (runChain env q n xs (runEngine env q n x st).2).2.1 = stMid := by
        have := congrArg (fun z => z.2.1) h
        simpa using this
      have h3 : (runChain env q n xs (runEngine env q n x st).2).2.2 = xs := by
        have := congrArg (fun z => z.2.2) h
        simpa using this
      have hrec : runChain env q n xs (runEngine env q n x st).2 = (none, stMid, xs) :=
        Prod.ext h1 (Prod.ext h2 h3)
      have hstep := ih ys (runEngine env q n x st).2 stMid hrec
      rw [List.cons_append]
      simp only [runChain]
      rw [if_pos hp, hstep]
      simp
    · rw [if_neg hp] at h
      exact absurd (congrArg (fun z => z.1) h) (by simp)

/-- When every engine of the chain yields empty, the chain yields no
result and every engine gets invoked, in order. -/
theorem runChain_of_all_empty (env : Env) (q : String) (n : ℕ)
    (hAll : ∀ name st', (runEngine env q n name st').1 = []) :
    ∀ (names : List String) (st : SearchState),
    (runChain env q n names st).1 = none
    ∧ (runChain env q n names st).2.2 = names := by
  intro names
  induction names with
  | nil => intro st; simp [runChain]
  | cons x xs ih =>
    intro st
    have hx := hAll x st
    simp only [runChain, hx]
    rw [if_pos (by simp)]
    exact ⟨(ih _).1, by simp [(ih _).2]⟩

/-- The exhaustion behaviour of the orchestrator: with the API method
yielding nothing and every scraped engine empty, the placeholder is
returned and the trace covers the whole chain. -/
theorem swf_exhaustion (env : Env) (q : String) (n : ℕ) (st : SearchState)
    (hApi : (method1 env q n st).1 = none)
    (hAll : ∀ name st', (runEngine env q n name st').1 = []) :
    (search_with_fallbacks env q n st).1 = [placeholderResult q]
    ∧ (search_with_fallbacks env q n st).2.2 =
      (if (method1 env q n st).2.2 then ["duckduckgo_api"] else []) ++ chainNames := by
  have hchain := runChain_of_all_empty env q n hAll chainNames (method1 env q n st).2.1
  constructor
  · unfold search_with_fallbacks
    rw [hApi]
    dsimp only
    rw [hchain.1]
  · unfold search_with_fallbacks
    rw [hApi]
    dsimp only
    rw [hchain.1]
    dsimp only
    rw [hchain.2]

/-! ## Field-shape lemmas: every record the orchestrator can return
carries the `title` / `url` / `snippet` keys and no `href` / `body` /
`image` key -/

theorem parseDdgHtmlItem_clean (i : DdgHtmlItem) (r : ResultDict)
    (h : parseDdgHtmlItem i = some r) :
    r.href = none ∧ r.body = none ∧ r.image = none := by
  cases hte : i.titleElem with
  | none => simp [parseDdgHtmlItem, hte] at h
  | some te =>
    simp only [parseDdgHtmlItem, hte, Option.some.injEq] at h
    subst h
    exact ⟨rfl, rfl, rfl⟩

theorem parseScrapeItem_clean (post : String → String) (i : ScrapeItem) (r : ResultDict)
    (h : parseScrapeItem post i = some r) :
    r.href = none ∧ r.body = none ∧ r.image = none := by
  cases ht : i.titleText with
  | none => simp [parseScrapeItem, ht] at h
  | some t =>
    cases hl : i.linkElem with
    | none => simp [parseScrapeItem, ht, hl] at h
    | some l =>
      simp only [parseScrapeItem, ht, hl, Option.some.injEq] at h
      subst h
      exact ⟨rfl, rfl, rfl⟩

theorem runEngine_clean (env : Env) (q : String) (n : ℕ) (name : String)
    (st : SearchState) :
    ∀ r ∈ (runEngine env q n name st).1,
    r.href = none ∧ r.body = none ∧ r.image = none := by
  intro r hr
  unfold runEngine at hr
  by_cases hn : name = "duckduckgo_html"
  · rw [if_pos hn] at hr
    unfold search_duckduckgo_html_fallback at hr
    by_cases hf : (is_engine_failing env.now st.failedEngines "duckduckgo_html").1
    · rw [if_pos hf] at hr
      simp at hr
    · rw [if_neg hf] at hr
      cases hraw : env.ddgHtmlRaw with
      | none => rw [hraw] at hr; simp at hr
      | some items =>
        rw [hraw] at hr
        dsimp only at hr
        obtain ⟨i, -, hp⟩ := List.mem_filterMap.1 hr
        exact parseDdgHtmlItem_clean i r hp
  · rw [if_neg hn] at hr
    unfold genericScrapeAdapter at hr
    by_cases hf : (is_engine_failing env.now st.failedEngines name).1
    · rw [if_pos hf] at hr
      simp at hr
    · rw [if_neg hf] at hr
      cases hraw : env.scrapeRaw name with
      | none => rw [hraw] at hr; simp at hr
      | some items =>
        rw [hraw] at hr
        dsimp only at hr
        obtain ⟨i, -, hp⟩ := List.mem_filterMap.1 hr
        exact parseScrapeItem_clean (postprocessFor name) i r hp

theorem runChain_clean (env : Env) (q : String) (n : ℕ) :
    ∀ (names : List String) (st : SearchState) (rs : List ResultDict),
    (runChain env q n names st).1 = some rs →
    ∀ r ∈ rs, r.href = none ∧ r.body = none ∧ r.image = none := by
  intro names
  induction names with
  | nil => intro st rs h; simp [runChain] at h
  | cons x xs ih =>
    intro st rs h
    simp only [runChain] at h
    by_cases hp : (runEngine env q n x st).1.isEmpty
    · rw [if_pos hp] at h
      exact ih _ rs (by simpa using h)
    · rw [if_neg hp] at h
      have hx : (runEngine env q n x st).1 = rs := by simpa using h
      subst hx
      exact runEngine_clean env q n x st

theorem method1_some (env : Env) (q : String) (n : ℕ) (st : SearchState)
    (rs : List ResultDict) (h : (method1 env q n st).1 = some rs) :
    ∃ raws, env.ddgTextRaw = some raws ∧ rs = raws.map formatDdgApiResult := by
  unfold method1 at h
  split at h
  · split at h
    · split at h
      · simp at h
      · rename_i raws heq
        split at h
        · simp at h
        · refine ⟨raws, heq, ?_⟩
          have := h
          simpa using this.symm
    · simp at h
  · simp at h

theorem swf_clean (env : Env) (q : String) (n : ℕ) (st : SearchState) :
    ∀ r ∈ (search_with_fallbacks env q n st).1,
    r.href = none ∧ r.body = none ∧ r.image = none := by
  intro r hr
  unfold search_with_fallbacks at hr
  split at hr
  · rename_i rs hm
    obtain ⟨raws, -, hmap⟩ := method1_some env q n st rs hm
    subst hmap
    obtain ⟨x, -, hx⟩ := List.mem_map.1 (by simpa using hr)
    subst hx
    exact ⟨rfl, rfl, rfl⟩
  · split at hr
    · rename_i rs hc
      exact runChain_clean env q n chainNames _ rs hc r (by simpa using hr)
    · have hre : r = placeholderResult q := by simpa using hr
      subst hre
      exact ⟨rfl, rfl, rfl⟩

/-! ## Substring lemmas for the diagnostic snippet -/

theorem listContainsSub_append_of_right (p b : List Char)
    (h : listContainsSub p b = true) :
    ∀ a : List Char, listContainsSub p (a ++ b) = true := by
  intro a
  induction a with
  | nil => simpa using h
  | cons c t ih =>
    simp only [List.cons_append, listContainsSub, List.append_eq]
    rw [ih]
    simp

theorem placeholder_snippet_mentions (q p : String)
    (h : listContainsSub p.data phPost.data = true) :
    strContainsSub (placeholderSnippet q) p = true := by
  unfold strContainsSub placeholderSnippet
  have hdata : (phPre ++ q ++ phPost).data = (phPre ++ q).data ++ phPost.data := rfl
  rw [hdata]
  exact listContainsSub_append_of_right p.data phPost.data h (phPre ++ q).data

/-! ## Theorems for the orchestrator claims -/

/-- C1: the orchestrator short-circuits — if Method 1 (the DuckDuckGo
API) yields a non-empty set it is returned at once with no scraped
engine invoked; and if the chain reaches engine `e` (every earlier
engine having run and returned empty) and `e` yields a non-empty set,
exactly that set is returned, unmerged, and no later engine appears in
the invocation trace. -/
theorem fallback_short_circuit (env : Env) (q : String) (n : ℕ) (st : SearchState) :
    (∀ rs st1 b, method1 env q n st = (some rs, st1, b) →
        search_with_fallbacks env q n st = (rs, st1, ["duckduckgo_api"]))
    ∧ (∀ pre e post apiSt apiInv stMid,
        chainNames = pre ++ e :: post →
        method1 env q n st = (none, apiSt, apiInv) →
        runChain env q n pre apiSt = (none, stMid, pre) →
        (runEngine env q n e stMid).1 ≠ [] →
        search_with_fallbacks env q n st =
          ((runEngine env q n e stMid).1, (runEngine env q n e stMid).2,
           (if apiInv then ["duckduckgo_api"] else []) ++ (pre ++ [e]))
        ∧ ∀ x ∈ post,
            x ∉ (if apiInv then ["duckduckgo_api"] else []) ++ (pre ++ [e])) := by
  constructor
  · intro rs st1 b hm
    unfold search_with_fallbacks
    rw [hm]
  · intro pre e post apiSt apiInv stMid hsplit hm hpre hne
    have hchain : runChain env q n chainNames apiSt =
        (some (runEngine env q n e stMid).1, (runEngine env q n e stMid).2, pre ++ [e]) := by
      rw [hsplit, runChain_append_of_none env q n pre (e :: post) apiSt stMid hpre,
        runChain_cons_of_nonempty env q n e post stMid hne]
    constructor
    · unfold search_with_fallbacks
      rw [hm]
      dsimp only
      rw [hchain]
    · intro x hx
      have hnd : (pre ++ e :: post).Nodup := by
        rw [← hsplit]
        decide
      have hxchain : x ∈ chainNames := by
        rw [hsplit]
        simp [hx]
      have hxapi : x ≠ "duckduckgo_api" := by
        intro hxe
        rw [hxe] at hxchain
        revert hxchain
        decide
      have hdisj := (List.nodup_append.1 hnd).2.2
      have hxpre : x ∉ pre := fun hxp => hdisj hxp (by simp [hx])
      have hepost : e ∉ post := (List.nodup_cons.1 (List.nodup_append.1 hnd).2.1).1
      have hxe : x ≠ e := by
        intro hq
        rw [← hq] at hepost
        exact hepost hx
      intro hmem
      rcases List.mem_append.1 hmem with hA | hB
      · cases apiInv
        · simp at hA
        · simp at hA
          exact hxapi hA
      · rcases List.mem_append.1 hB with hC | hD
        · exact hxpre hC
        · simp at hD
          exact hxe hD

/-- Witness for C1: library unavailable, DuckDuckGo HTML empty, google
non-empty — the trace stops at google and bing is never invoked. -/
theorem fallback_short_circuit_witness :
    (search_with_fallbacks envShortCircuit "q" 5 st0).2.2 = ["duckduckgo_html", "google"]
    ∧ "bing" ∉ (search_with_fallbacks envShortCircuit "q" 5 st0).2.2 := by
  have h := (fallback_short_circuit envShortCircuit "q" 5 st0).2
    ["duckduckgo_html"] "google" ["bing", "yandex", "startpage", "ecosia"]
    st0 false st0 (by decide) (by decide) (by decide) (by decide)
  constructor
  · rw [h.1]
    decide
  · rw [h.1]
    decide

/-- Every adapter of `envExhaust` yields empty, whatever the state. -/
theorem envExhaust_runEngine_empty (q : String) (n : ℕ) :
    ∀ (name : String) (st' : SearchState),
    (runEngine envExhaust q n name st').1 = [] := by
  intro name st'
  unfold runEngine
  by_cases hn : name = "duckduckgo_html"
  · rw [if_pos hn]
    unfold search_duckduckgo_html_fallback
    by_cases hf : (is_engine_failing envExhaust.now st'.failedEngines "duckduckgo_html").1
    · rw [if_pos hf]
    · rw [if_neg hf]
      have hraw0 : envExhaust.ddgHtmlRaw = some [] := rfl
      rw [hraw0]
      simp
  · rw [if_neg hn]
    unfold genericScrapeAdapter
    by_cases hf : (is_engine_failing envExhaust.now st'.failedEngines name).1
    · rw [if_pos hf]
    · rw [if_neg hf]
      have hraw : envExhaust.scrapeRaw name = some [] := rfl
      rw [hraw]
      simp

/-- C2: when the API method yields nothing and every scraped adapter
returns empty, the orchestrator returns — through its normal return
path — exactly the one synthetic placeholder result (so the returned
sequence is non-empty), every chain engine was invoked, and the
placeholder's snippet names the providers. -/
theorem fallback_exhaustion_placeholder (env : Env) (q : String) (n : ℕ)
    (st : SearchState)
    (hApi : (method1 env q n st).1 = none)
    (hAll : ∀ name st', (runEngine env q n name st').1 = []) :
    (search_with_fallbacks env q n st).1 = [placeholderResult q]
    ∧ (search_with_fallbacks env q n st).1 ≠ []
    ∧ (search_with_fallbacks env q n st).1.length = 1
    ∧ (∀ name ∈ chainNames, name ∈ (search_with_fallbacks env q n st).2.2)
    ∧ (∀ p ∈ ["DuckDuckGo", "Google", "Bing", "Yandex", "Startpage", "Ecosia"],
        strContainsSub ((placeholderResult q).snippet.getD "") p = true) := by
  have hmain := swf_exhaustion env q n st hApi hAll
  refine ⟨hmain.1, by rw [hmain.1]; simp, by rw [hmain.1]; rfl, ?_, ?_⟩
  · intro name hn
    rw [hmain.2]
    exact List.mem_append.2 (Or.inr hn)
  · intro p hp
    show strContainsSub (placeholderSnippet q) p = true
    apply placeholder_snippet_mentions
    fin_cases hp <;> decide

/-- Witness for C2 in the all-empty environment. -/
theorem fallback_exhaustion_placeholder_witness :
    (search_with_fallbacks envExhaust "q" 5 st0).1 = [placeholderResult "q"]
    ∧ "google" ∈ (search_with_fallbacks envExhaust "q" 5 st0).2.2 := by
  have h := fallback_exhaustion_placeholder envExhaust "q" 5 st0 rfl
    (envExhaust_runEngine_empty "q" 5)
  exact ⟨h.1, h.2.2.2.1 "google" (by decide)⟩

set_option maxRecDepth 8192 in
/-- C5 counterexample: in the all-empty environment the orchestrator
returns the synthetic placeholder, whose `url` is the empty string —
so a returned record can carry an empty url, contrary to the claim
that no returned record has `url = ""`. -/
theorem url_empty_counterexample :
    (search_with_fallbacks envExhaust "q" 5 st0).1 = [placeholderResult "q"]
    ∧ (placeholderResult "q").url = some "" := by
  decide

/-- C5 (amended): URLs are not validated — the API-path normalization
keeps every record and maps a missing `href` to `url = ""`; the
placeholder's url is `""`; and the DuckDuckGo HTML parser drops a block
only for a missing title element (never for a missing or empty URL). -/
theorem url_not_validated (q : String) (r : ResultDict) (i : DdgHtmlItem) :
    (formatDdgApiResult r).url = some (r.href.getD "")
    ∧ (r.href = none → (formatDdgApiResult r).url = some "")
    ∧ (placeholderResult q).url = some ""
    ∧ (parseDdgHtmlItem i = none ↔ i.titleElem = none) := by
  refine ⟨rfl, ?_, rfl, ?_⟩
  · intro h
    simp [formatDdgApiResult, h]
  · cases ht : i.titleElem <;> simp [parseDdgHtmlItem, ht]

/-- Witness for C5's amended statement on a record with no `href` key. -/
theorem url_not_validated_witness :
    (formatDdgApiResult rawNoHref).url = some ""
    ∧ (placeholderResult "q").url = some "" := by
  have h := url_not_validated "q" rawNoHref {}
  exact ⟨h.2.1 rfl, h.2.2.1⟩

/-- C6 counterexample: a raw API record with no `href` key is retained
by the normalization (with `url = ""`), contradicting the claim that
only — and in particular that — a missing URL causes the record to be
dropped. -/
theorem normalizer_missing_url_retained :
    ([rawNoHref].map formatDdgApiResult).length = 1
    ∧ (formatDdgApiResult rawNoHref).url = some "" := by
  decide

/-- C6 (amended): the API-path normalization defaults a missing title
to `"No title"` and a missing snippet to `"No description"` and retains
every record — including records with a missing URL, which are kept
with `url = ""`; the DuckDuckGo HTML parser retains every block with a
title element (defaulting missing url/snippet to `""`). -/
theorem normalizer_defaults (raws : List ResultDict) (r : ResultDict)
    (t : String) (h : Option String) (sn : Option String) :
    (r.title = none → (formatDdgApiResult r).title = some "No title")
    ∧ (r.body = none → (formatDdgApiResult r).snippet = some "No description")
    ∧ (raws.map formatDdgApiResult).length = raws.length
    ∧ parseDdgHtmlItem { titleElem := some (t, h), snippetText := sn } =
        some { title := some t, url := some (h.getD ""), snippet := some (sn.getD "") } := by
  refine ⟨?_, ?_, by simp, rfl⟩
  · intro ht
    simp [formatDdgApiResult, ht]
  · intro hb
    simp [formatDdgApiResult, hb]

/-- Witness for C6's amended statement on an all-keys-missing record. -/
theorem normalizer_defaults_witness :
    (formatDdgApiResult rawNoHref).title = some "No title"
    ∧ (formatDdgApiResult rawNoHref).snippet = some "No description" := by
  have hh := normalizer_defaults [] rawNoHref "t" none none
  exact ⟨hh.1 rfl, hh.2.1 rfl⟩

/-- C8 (amended): an empty query is not special-cased — it flows
through the same fallback chain, adapters are invoked for it (the trace
is non-empty and contains the DuckDuckGo HTML engine), and when every
adapter yields empty the call returns the singleton placeholder, not a
size-zero result set or a validation-error signal. -/
theorem empty_query_not_short_circuited (env : Env) (n : ℕ) (st : SearchState)
    (hApi : (method1 env "" n st).1 = none)
    (hAll : ∀ name st', (runEngine env "" n name st').1 = []) :
    (search_with_fallbacks env "" n st).2.2 ≠ []
    ∧ "duckduckgo_html" ∈ (search_with_fallbacks env "" n st).2.2
    ∧ (search_with_fallbacks env "" n st).1.length = 1
    ∧ (search_with_fallbacks env "" n st).1 = [placeholderResult ""] := by
  have hmain := swf_exhaustion env "" n st hApi hAll
  refine ⟨?_, ?_, by rw [hmain.1]; rfl, hmain.1⟩
  · rw [hmain.2]
    simp [chainNames]
  · rw [hmain.2]
    exact List.mem_append.2 (Or.inr (by decide))

/-- Witness for C8's amended statement. -/
theorem empty_query_not_short_circuited_witness :
    (search_with_fallbacks envExhaust "" 5 st0).1.length = 1
    ∧ "duckduckgo_html" ∈ (search_with_fallbacks envExhaust "" 5 st0).2.2 := by
  have h := empty_query_not_short_circuited envExhaust 5 st0 rfl
    (envExhaust_runEngine_empty "" 5)
  exact ⟨h.2.2.1, h.2.1⟩

set_option maxRecDepth 8192 in
/-- C8 counterexample: with an empty query the DuckDuckGo HTML adapter
is invoked (so network activity is not short-circuited) and the
returned set has size one, not zero, and is an ordinary result list,
not a validation-error signal. -/
theorem empty_query_counterexample :
    "duckduckgo_html" ∈ (search_with_fallbacks envExhaust "" 5 st0).2.2
    ∧ (search_with_fallbacks envExhaust "" 5 st0).1.length = 1 := by
  decide

set_option maxRecDepth 8192 in
/-- C9: the image-search fallback is dead code.  With the structured
image lookup returning zero records, the general fallback (on the
hint-augmented query) does produce a result whose URL the image
classifier accepts, yet `handle_image_search` reports no images: the
collection loop reads the `image` key, which fallback records never
carry, and the classifier is never consulted. -/
theorem image_search_fallback_dead :
    (handle_image_search envImageBug "cats" 5 st0).1 = []
    ∧ (search_with_fallbacks envImageBug (imageQueryHints "cats") 5
        { timestamps := [0], failedEngines := [] }).1
      = [{ title := some "Cat picture", url := some "https://example.com/pic.png",
           snippet := some "a cat" }]
    ∧ is_image_url "https://example.com/pic.png" = true := by
  decide

/-- With the `href` and `body` keys absent, a result renders with an
empty url and the default snippet and matches no multimedia class. -/
theorem processSearchResult_of_clean (r : ResultDict)
    (h1 : r.href = none) (h2 : r.body = none) :
    processSearchResult r =
      (⟨r.title.getD "No title", "", "No description"⟩, none) := by
  have hy : extract_youtube_id "" = none := by decide
  have hi : is_image_url "" = false := by decide
  have hv : is_video_url "" = false := by decide
  unfold processSearchResult
  rw [h1, h2]
  simp only [Option.getD_none]
  rw [hy]
  simp [hi, hv]

/-- C10: `handle_search` reads each record's URL from key `href` and
its snippet from key `body`, but every record `search_with_fallbacks`
returns carries `url` / `snippet` instead — so every rendered item has
an empty url and the snippet `"No description"`, and the multimedia
classification never matches anything. -/
theorem handle_search_key_mismatch (env : Env) (q : String) (n : ℕ)
    (st : SearchState) :
    (∀ it ∈ (handle_search env q n st).1, it.url = "" ∧ it.snippet = "No description")
    ∧ (handle_search env q n st).2.1 = [] := by
  have hfield := swf_clean env q n st
  constructor
  · intro it hit
    unfold handle_search at hit
    dsimp only at hit
    obtain ⟨r, hr, hrit⟩ := List.mem_map.1 hit
    have hc := hfield r hr
    rw [← hrit, processSearchResult_of_clean r hc.1 hc.2.1]
    exact ⟨rfl, rfl⟩
  · unfold handle_search
    dsimp only
    rw [List.filterMap_eq_nil_iff]
    intro r hr
    rw [processSearchResult_of_clean r (hfield r hr).1 (hfield r hr).2.1]

/-- Witness for C10: the multimedia list is empty in a concrete run. -/
theorem handle_search_key_mismatch_witness :
    (handle_search envExhaust "q" 5 st0).2.1 = [] := by
  exact (handle_search_key_mismatch envExhaust "q" 5 st0).2
